import Mathlib

/-!
Verification of the Socket.IO chat reference implementation
(src/app/chat/page.tsx client + custom server, src/app/socket.ts).

The server side (the `io.on("connection")` callback in the custom server)
is embedded as a per-socket step function over the socket's mutable
`username` field, producing the observable actions (console logs, `io.emit`
broadcasts, process termination).  The client side embeds the `onMessage`
handler of the chat page.  JavaScript `undefined` is modelled as `none`
of an `Option`, and JS truthiness of the `username` field (`undefined`
and `""` are falsy) is made explicit.
-/

namespace SocketChat

/-- The `type` field of a message: `"user" | "system"`. -/
inductive Kind where
  | user
  | system
deriving DecidableEq

/-- A message object broadcast by the server via `io.emit("message", ...)`:
`{ text, username, type }`. -/
structure OutMsg where
  text : String
  username : String
  kind : Kind
deriving DecidableEq

/-- A well-formed chat message sent by a client via
`socket.emit("message", { text, username, type })` (cf. `MessageData`
in src/app/socket.ts). -/
structure ClientMsg where
  text : String
  username : String
  kind : Kind
deriving DecidableEq

/-- Observable actions performed by the server callbacks: console output,
a broadcast to all connected sockets, or process termination with an
exit code (`process.exit`). -/
inductive Action where
  | log (s : String)
  | emit (m : OutMsg)
  | exit (code : Nat)
deriving DecidableEq

/-- Per-socket server state: the `socket.username` expando field, which is
`undefined` (here `none`) until a `user_joined` event assigns it. -/
structure SocketState where
  username : Option String
deriving DecidableEq

/-- JavaScript truthiness of the `socket.username` field as used in
`if (socket.username)`: `undefined` and the empty string are falsy. -/
def jsTruthy : Option String → Bool
  | none => false
  | some s => !(s == "")

/-- Inbound events on one socket, in the order the server receives them:
`user_joined`, `message`, and the `disconnect` lifecycle event. -/
inductive SocketEvent where
  | userJoined (username : String)
  | message (m : ClientMsg)
  | disconnect
deriving DecidableEq

/-- One inbound event handled by the callbacks registered in
`io.on("connection", (socket) => ...)` of the custom server:

* `user_joined`: logs, stores the username in the socket instance
  (`socket.username = username`, an unconditional assignment), and
  broadcasts `{ text: "has joined the chat", username, type: "system" }`;
* `message`: logs and broadcasts
  `{ text: message.text, username: message.username, type: "user" }`;
* `disconnect`: if `socket.username` is truthy, logs and broadcasts
  `{ text: "has left the chat", username: socket.username, type: "system" }`,
  otherwise does nothing. -/
def stepSocket (st : SocketState) (ev : SocketEvent) : SocketState × List Action :=
  match ev with
  | SocketEvent.userJoined u =>
      ({ username := some u },
       [Action.log ("User joined: " ++ u),
        Action.emit { text := "has joined the chat", username := u, kind := Kind.system }])
  | SocketEvent.message m =>
      (st,
       [Action.log "Message received:",
        Action.emit { text := m.text, username := m.username, kind := Kind.user }])
  | SocketEvent.disconnect =>
      if jsTruthy st.username then
        (st,
         [Action.log ("User disconnected: " ++ st.username.getD ""),
          Action.emit { text := "has left the chat", username := st.username.getD "",
                        kind := Kind.system }])
      else (st, [])

/-- A freshly connected socket: `socket.username` is undefined. -/
def initialSocket : SocketState := { username := none }

/-- Run a socket through a sequence of inbound events, collecting the
actions of every handler invocation in order. -/
def runSocket : SocketState → List SocketEvent → SocketState × List Action
  | st, [] => (st, [])
  | st, ev :: evs =>
      ((runSocket (stepSocket st ev).1 evs).1,
       (stepSocket st ev).2 ++ (runSocket (stepSocket st ev).1 evs).2)

/-- The actions a single channel's lifetime of events triggers, starting
from a fresh connection. -/
def socketActions (evs : List SocketEvent) : List Action :=
  (runSocket initialSocket evs).2

/-- The messages broadcast (via `io.emit`) among a list of actions. -/
def emitted (as : List Action) : List OutMsg :=
  as.filterMap fun a =>
    match a with
    | Action.emit m => some m
    | _ => none

/-- The broadcast messages of kind `"system"`. -/
def systemEmitted (as : List Action) : List OutMsg :=
  (emitted as).filter fun m => m.kind == Kind.system

/-- The `"has joined the chat"` system broadcasts among a list of actions. -/
def joinedBroadcasts (as : List Action) : List OutMsg :=
  (systemEmitted as).filter fun m => m.text == "has joined the chat"

/-- The `"has left the chat"` system broadcasts among a list of actions. -/
def leftBroadcasts (as : List Action) : List OutMsg :=
  (systemEmitted as).filter fun m => m.text == "has left the chat"

/-- `io.emit` fans a message out to every currently connected socket,
including the sender: each socket id in the registry receives the same
message object. -/
def ioEmit (registry : List Nat) (m : OutMsg) : List (Nat × OutMsg) :=
  registry.map fun sid => (sid, m)

/-- A chat-message payload whose required fields may be missing
(`undefined`), as a malformed client can send. -/
structure RawClientMsg where
  text : Option String
  username : Option String
  kind : Option Kind
deriving DecidableEq

/-- A broadcast object built from possibly-missing fields: `{ text:
message.text, username: message.username, type: "user" }` where a missing
source field yields an `undefined` property value. -/
structure RawOutMsg where
  text : Option String
  username : Option String
  kind : Kind
deriving DecidableEq

/-- JavaScript runtime errors relevant here: the TypeError raised by a
property access on `undefined`. -/
inductive JsError where
  | typeError
deriving DecidableEq

/-- The server's `message` handler applied to an arbitrary (possibly
absent or incomplete) payload.  The body reads `message.text` and
`message.username`: if the payload itself is `undefined` (the client
emitted `message` with no argument), the property access raises a
TypeError which escapes the handler; if the payload is an object, missing
fields simply read as `undefined` and the broadcast proceeds with `type`
forced to `"user"`. -/
def handleRawMessage (payload : Option RawClientMsg) : Except JsError RawOutMsg :=
  match payload with
  | none => Except.error JsError.typeError
  | some m => Except.ok { text := m.text, username := m.username, kind := Kind.user }

/-- A client-side stored message (the `Message` interface of
src/app/chat/page.tsx): server data plus a random id, a client
timestamp, and a `type`. -/
structure Message where
  id : String
  text : String
  timestamp : Nat
  username : String
  type : Kind
deriving DecidableEq

/-- The client's `onMessage` handler (src/app/chat/page.tsx): builds a
`Message` from the received server message, a freshly generated random id
and `Date.now()`, hard-coding `type: "user"` and never reading the
server-sent `type` field. -/
def onMessage (newId : String) (now : Nat) (message : OutMsg) : Message :=
  { id := newId
    text := message.text
    username := message.username
    timestamp := now
    type := Kind.user }

/-- Actions of the `io.on("connection")` callback body itself (before any
socket event): `console.log("A user connected")`. -/
def connectionActions : List Action := [Action.log "A user connected"]

/-- The `httpServer.once("error", ...)` handler of the bootstrap:
`console.error(err); process.exit(1)`. -/
def httpErrorHandler (err : String) : List Action :=
  [Action.log err, Action.exit 1]

/-- The `listen` success callback of the bootstrap: logs the ready line. -/
def listenHandler : List Action :=
  [Action.log "> Ready on http://localhost:3000"]

/-- One entry of the Connection Registry: a channel identifier with its
optional display label. -/
structure RegEntry where
  sid : Nat
  username : Option String
deriving DecidableEq

/-- Modelled from the spec: the Connection Registry of §4.1 is realized
inside the Socket.IO library, whose code is not part of this repository's
sources; per the spec it is the set of live channels, each with an
optional label. -/
structure Registry where
  channels : List RegEntry
deriving DecidableEq

/-- Modelled from the spec: `unregister(channelId) -> LastKnownLabel | none`
(§4.1) — removes the channel and returns its label if the channel was
present (`some label?`), or reports not-found (`none`) when no channel
with that identifier exists. -/
def Registry.unregister (r : Registry) (sid : Nat) :
    Registry × Option (Option String) :=
  match r.channels.find? (fun c => c.sid == sid) with
  | none => (r, none)
  | some c =>
      ({ channels := r.channels.filter fun e => e.sid != sid }, some c.username)

/-- Modelled from the spec: the Presence Notifier's reaction to an
`unregister` result (§4.3) — only a previously-set label triggers the
`"has left the chat"` system broadcast; a not-found result or a channel
that never set a label triggers nothing. -/
def leaveBroadcast (res : Option (Option String)) : List OutMsg :=
  match res with
  | some (some l) => [{ text := "has left the chat", username := l, kind := Kind.system }]
  | _ => []

lemma emitted_append (as bs : List Action) :
    emitted (as ++ bs) = emitted as ++ emitted bs := by
  simp [emitted]

lemma systemEmitted_append (as bs : List Action) :
    systemEmitted (as ++ bs) = systemEmitted as ++ systemEmitted bs := by
  simp [systemEmitted, emitted_append]

lemma runSocket_cons (st : SocketState) (ev : SocketEvent) (evs : List SocketEvent) :
    runSocket st (ev :: evs) =
      ((runSocket (stepSocket st ev).1 evs).1,
       (stepSocket st ev).2 ++ (runSocket (stepSocket st ev).1 evs).2) := rfl

lemma stepSocket_message (st : SocketState) (m : ClientMsg) :
    stepSocket st (SocketEvent.message m) =
      (st,
       [Action.log "Message received:",
        Action.emit { text := m.text, username := m.username, kind := Kind.user }]) := rfl

/-- A run of chat-message events contributes no system broadcasts and does
not change the socket state, so the system broadcasts of a trace are those
of the trace with the message events removed from the front. -/
lemma systemEmitted_runSocket_messages (ms : List ClientMsg) (st : SocketState)
    (evs : List SocketEvent) :
    systemEmitted (runSocket st (ms.map SocketEvent.message ++ evs)).2 =
      systemEmitted (runSocket st evs).2 := by
  induction ms with
  | nil => rfl
  | cons m ms ih =>
      rw [List.map_cons, List.cons_append, runSocket_cons, stepSocket_message,
        systemEmitted_append, ih]
      simp [systemEmitted, emitted]

lemma find?_filter_ne (l : List RegEntry) (sid : Nat) :
    (l.filter fun e => e.sid != sid).find? (fun c => c.sid == sid) = none := by
  rw [List.find?_eq_none]
  intro x hx
  have hne := List.of_mem_filter hx
  simp only [bne_iff_ne, ne_eq] at hne
  simp [hne]

lemma unregister_of_find?_none (r : Registry) (sid : Nat)
    (h : r.channels.find? (fun c => c.sid == sid) = none) :
    r.unregister sid = (r, none) := by
  simp [Registry.unregister, h]

lemma unregister_fst_find? (r : Registry) (sid : Nat) :
    ((r.unregister sid).1).channels.find? (fun c => c.sid == sid) = none := by
  unfold Registry.unregister
  cases hf : r.channels.find? (fun c => c.sid == sid) with
  | none => simp [hf]
  | some c => simp [find?_filter_ne]

/-- Claim C1, counterexample: a second `user_joined` event on an
already-labeled channel triggers another `"has joined the chat"`
broadcast — the trace of two joins as "alice" contains two joined
broadcasts, not one, so the joined broadcast is not gated on first label
assignment. -/
theorem second_join_rebroadcasts_cex :
    (joinedBroadcasts (socketActions
      [SocketEvent.userJoined "alice", SocketEvent.userJoined "alice"])).length = 2 ∧
    ¬ (joinedBroadcasts (socketActions
      [SocketEvent.userJoined "alice", SocketEvent.userJoined "alice"])).length ≤ 1 := by
  decide

/-- Claim C1, amended: every `user_joined` event triggers exactly one
`"has joined the chat"` system broadcast carrying the event's label,
regardless of whether the channel already had a label. -/
theorem every_join_broadcasts_joined (st : SocketState) (u : String) :
    joinedBroadcasts (stepSocket st (SocketEvent.userJoined u)).2 =
      [{ text := "has joined the chat", username := u, kind := Kind.system }] := by
  simp [stepSocket, joinedBroadcasts, systemEmitted, emitted]

/-- Claim C2: a channel whose lifetime is exactly one join as "alice"
(possibly followed by chat messages) and then a disconnect produces
exactly two system broadcasts, `"has joined the chat"` with label "alice"
and then `"has left the chat"` with label "alice", in that order. -/
theorem join_then_disconnect_two_system_events (ms : List ClientMsg) :
    systemEmitted (socketActions
        (SocketEvent.userJoined "alice" ::
          (ms.map SocketEvent.message ++ [SocketEvent.disconnect]))) =
      [{ text := "has joined the chat", username := "alice", kind := Kind.system },
       { text := "has left the chat", username := "alice", kind := Kind.system }] := by
  unfold socketActions
  rw [runSocket_cons, systemEmitted_append, systemEmitted_runSocket_messages]
  decide

/-- Claim C4: a channel that never sends a `user_joined` event (its
lifetime is any number of chat messages and then a disconnect) triggers
zero system broadcasts: no joined broadcast and no leave broadcast. -/
theorem no_join_no_system_events (ms : List ClientMsg) :
    systemEmitted (socketActions
        (ms.map SocketEvent.message ++ [SocketEvent.disconnect])) = [] := by
  unfold socketActions
  rw [systemEmitted_runSocket_messages]
  rfl

/-- Claim C5, counterexample: after a join as "alice" followed by a join
as "bob", the stored label is "bob", not "alice" — a later `user_joined`
event overwrites the stored label, so the first join does not win. -/
theorem second_join_overwrites_label_cex :
    (runSocket initialSocket
        [SocketEvent.userJoined "alice", SocketEvent.userJoined "bob"]).1.username =
      some "bob" ∧
    ¬ (runSocket initialSocket
        [SocketEvent.userJoined "alice", SocketEvent.userJoined "bob"]).1.username =
      some "alice" := by
  decide

/-- Claim C5, amended: every `user_joined` event unconditionally assigns
its label to the channel (`socket.username = username`), so the stored
label after any join event is that event's label — the last join wins. -/
theorem join_sets_label_to_latest (st : SocketState) (u : String) :
    (stepSocket st (SocketEvent.userJoined u)).1.username = some u := rfl

/-- Claim C10: a channel whose only join event carries the empty-string
label gets a `"has joined the chat"` broadcast with label `""`, but its
disconnect produces no `"has left the chat"` broadcast, because the leave
broadcast is gated on JS truthiness of `socket.username` and `""` is
falsy. -/
theorem empty_label_join_no_leave :
    joinedBroadcasts (socketActions
        [SocketEvent.userJoined "", SocketEvent.disconnect]) =
      [{ text := "has joined the chat", username := "", kind := Kind.system }] ∧
    leftBroadcasts (socketActions
        [SocketEvent.userJoined "", SocketEvent.disconnect]) = [] := by
  decide

/-- Claim C3: an inbound chat event is broadcast with exactly the
client-supplied text and username (the stored `socket.username` is never
consulted, so there is no cross-check of the label) and with kind forced
to `"user"` regardless of the client-supplied kind; `io.emit` delivers it
to every connected socket, including the sender. -/
theorem chat_broadcast_verbatim_kind_forced (st : SocketState) (m : ClientMsg)
    (reg : List Nat) (sender : Nat) (h : sender ∈ reg) :
    emitted (stepSocket st (SocketEvent.message m)).2 =
      [{ text := m.text, username := m.username, kind := Kind.user }] ∧
    ioEmit reg { text := m.text, username := m.username, kind := Kind.user } =
      reg.map (fun sid =>
        (sid, ({ text := m.text, username := m.username, kind := Kind.user } : OutMsg))) ∧
    (sender, ({ text := m.text, username := m.username, kind := Kind.user } : OutMsg)) ∈
      ioEmit reg { text := m.text, username := m.username, kind := Kind.user } := by
  refine ⟨rfl, rfl, ?_⟩
  simp only [ioEmit, List.mem_map]
  exact ⟨sender, h, rfl⟩

/-- Witness for claim C3 at a concrete input: a socket labeled "alice"
relaying a message claiming username "mallory" with kind `"system"`,
fanned out to the registry `[0, 1, 2]` whose member `1` is the sender. -/
theorem chat_broadcast_verbatim_kind_forced_witness :
    (1 : Nat) ∈ [0, 1, 2] ∧
    (emitted (stepSocket { username := some "alice" }
        (SocketEvent.message
          { text := "hi", username := "mallory", kind := Kind.system })).2 =
      [{ text := "hi", username := "mallory", kind := Kind.user }] ∧
    ioEmit [0, 1, 2] { text := "hi", username := "mallory", kind := Kind.user } =
      [0, 1, 2].map (fun sid =>
        (sid, ({ text := "hi", username := "mallory", kind := Kind.user } : OutMsg))) ∧
    ((1 : Nat), ({ text := "hi", username := "mallory", kind := Kind.user } : OutMsg)) ∈
      ioEmit [0, 1, 2] { text := "hi", username := "mallory", kind := Kind.user }) :=
  ⟨by decide,
   chat_broadcast_verbatim_kind_forced { username := some "alice" }
     { text := "hi", username := "mallory", kind := Kind.system } [0, 1, 2] 1 (by decide)⟩

/-- Claim C6, counterexample: a `message` event whose payload is absent
(the client emitted the event with no argument) makes the handler body
read `message.text` on `undefined`, raising a TypeError that escapes the
handler — it is neither dropped nor handled. -/
theorem absent_payload_raises_cex :
    handleRawMessage none = Except.error JsError.typeError := rfl

/-- Claim C6, amended: a chat event whose payload object is present but
lacks fields is handled without error (it is broadcast with the missing
fields `undefined` and kind forced to `"user"`), but a chat event whose
payload itself is absent raises a TypeError that escapes the handler. -/
theorem malformed_message_handling (m : RawClientMsg) :
    handleRawMessage (some m) =
      Except.ok { text := m.text, username := m.username, kind := Kind.user } ∧
    handleRawMessage none = Except.error JsError.typeError := ⟨rfl, rfl⟩

/-- Claim C7: unregister is idempotent — after unregistering a channel
identifier once, a second unregister of the same identifier reports
not-found, leaves the registry unchanged, and yields no
`"has left the chat"` broadcast. -/
theorem unregister_idempotent (r : Registry) (sid : Nat) :
    ((r.unregister sid).1).unregister sid = ((r.unregister sid).1, none) ∧
    leaveBroadcast (((r.unregister sid).1).unregister sid).2 = [] := by
  have h := unregister_of_find?_none ((r.unregister sid).1) sid (unregister_fst_find? r sid)
  exact ⟨h, by rw [h]; rfl⟩

/-- Claim C8: on an HTTP server startup error the bootstrap logs the
cause and terminates the process with exit code 1 (non-zero); no other
handler in the system (the connection callback, any socket event handler,
or the listen success callback) ever terminates the process. -/
theorem bind_failure_fatal_only (err : String) (st : SocketState)
    (ev : SocketEvent) (c : Nat) :
    httpErrorHandler err = [Action.log err, Action.exit 1] ∧
    (1 : Nat) ≠ 0 ∧
    Action.exit c ∉ (stepSocket st ev).2 ∧
    Action.exit c ∉ connectionActions ∧
    Action.exit c ∉ listenHandler := by
  refine ⟨rfl, by decide, ?_, by simp [connectionActions], by simp [listenHandler]⟩
  cases ev with
  | userJoined u => simp [stepSocket]
  | message m => simp [stepSocket]
  | disconnect =>
      by_cases h : jsTruthy st.username
      · simp [stepSocket, h]
      · simp [stepSocket, h]

/-- Claim C9: the client's `onMessage` handler stores every received
message with type `"user"`, copying the text and username but discarding
the kind the server sent — so server-synthesized system messages are
recorded client-side as user messages. -/
theorem client_onMessage_forces_user_kind (newId : String) (now : Nat)
    (message : OutMsg) :
    (onMessage newId now message).type = Kind.user ∧
    (onMessage newId now message).text = message.text ∧
    (onMessage newId now message).username = message.username := ⟨rfl, rfl, rfl⟩

end SocketChat
